import Mathlib

/-!
Verification of the ocserver plugin registry / dynamic router core.

Shallow embedding of:
- the error taxonomy (core/errors.ts): AppError, PluginError, ApiError;
- the plugin registry (core/registry.ts): registerPlugin, getPlugin (lazy
  one-shot client setup on first resolution), getAllPlugins, getPluginPaths;
- the dynamic router (core/router.ts): GET /items, GET /list/:app and the
  generic two-segment GET /:app/:path execute route;
- the terminal error middleware (middleware/errorHandler.ts);
- the Linear client issue filter (apps/linear/client.ts, fetchMyIssues);
- the Linear plugin shape (apps/linear/index.ts and paths/).

Effectful upstream calls (a plugin's async client setup, Linear API fetches)
are modelled as explicit oracle parameters: a resolution consumes an
`Except Thrown Unit` describing what the setup call would do this time, and
handlers take fetch-result parameters.  Wall-clock timestamps are threaded as
explicit `now` strings.
-/

set_option autoImplicit false

namespace OCServer

/-- JSON values, used for response bodies written through `res.json`. -/
inductive JValue where
  | jnull
  | jbool (b : Bool)
  | jnum (n : Int)
  | jstr (s : String)
  | jarr (elems : List JValue)
  | jobj (fields : List (String × JValue))

/-- The three-tier error taxonomy of core/errors.ts.  `appError` is the base
`AppError (message, statusCode)`; `pluginError` additionally carries the
originating plugin's name; `apiError` carries an optional wrapped cause
message.  All three are `instanceof AppError` in the source; only
`pluginError` is `instanceof PluginError`. -/
inductive ErrValue where
  | appError (message : String) (statusCode : Nat)
  | pluginError (pluginName : String) (message : String) (statusCode : Nat)
  | apiError (message : String) (statusCode : Nat) (causeMessage : Option String)

/-- The `statusCode` property of a taxonomy error. -/
def ErrValue.statusCode : ErrValue → Nat
  | .appError _ c => c
  | .pluginError _ _ c => c
  | .apiError _ c _ => c

/-- The `message` property of a taxonomy error. -/
def ErrValue.message : ErrValue → String
  | .appError m _ => m
  | .pluginError _ m _ => m
  | .apiError m _ _ => m

/-- A thrown JS error: either a taxonomy error (an `instanceof AppError`
value) or a plain `Error` carrying only a message. -/
inductive Thrown where
  | plain (message : String)
  | taxonomy (e : ErrValue)

/-- `err.statusCode` as read by the terminal error stage:
`err instanceof AppError ? err.statusCode : 500`. -/
def thrownStatus : Thrown → Nat
  | .plain _ => 500
  | .taxonomy e => e.statusCode

/-- `err.message` for any thrown error. -/
def thrownMessage : Thrown → String
  | .plain m => m
  | .taxonomy e => e.message

/-- An HTTP response written by a handler: `res.status(s).json(body)`
(`res.json(body)` is status 200). -/
structure HttpResponse where
  status : Nat
  body : JValue

/-- The slice of an Express request a handler observes: route parameters and
query parameters, both string key/value lists. -/
structure Request where
  params : List (String × String)
  query : List (String × String)

/-- One path descriptor of a plugin (core/types.ts `PathHandler`): a
route-pattern name, a description, the request handler, and an optional query
validation rule.  The handler is a function from the request to either a
thrown error or a written response; `schema` models Zod `safeParse` as
`Except` over the list of issue messages. -/
structure PathHandler where
  name : String
  description : String
  handler : Request → Except Thrown HttpResponse
  schema : Option (List (String × String) → Except (List String) Unit) := none

/-- A registered plugin (core/types.ts `AppPlugin`).  The async client-setup
operation is effectful and is modelled at each resolution by an oracle
argument to `getPlugin`, so it does not appear as a field. -/
structure AppPlugin where
  name : String
  version : String
  description : String
  paths : List PathHandler

/-- The registry's process-wide state (core/registry.ts): the insertion-ordered
plugin map and the set of names whose client setup has completed. -/
structure RegistryState where
  plugins : List (String × AppPlugin)
  initialized : List String

/-- The registry with no plugins. -/
def emptyRegistry : RegistryState := ⟨[], []⟩

/-- `registerPlugin` (core/registry.ts): adds the plugin unless its name is
already present; a colliding registration only logs a warning and changes
nothing. -/
def registerPlugin (s : RegistryState) (p : AppPlugin) : RegistryState :=
  if (s.plugins.lookup p.name).isSome then s
  else ⟨s.plugins ++ [(p.name, p)], s.initialized⟩

/-- Result of one `getPlugin` call: the returned value (or propagated thrown
error), the registry state afterwards, and how many times the plugin's
client-setup operation was invoked during the call. -/
structure ResolveResult where
  result : Except Thrown (Option AppPlugin)
  state : RegistryState
  initCalls : Nat

/-- `getPlugin` (core/registry.ts): looks the plugin up by name; absent names
return `none` without error.  If present and not yet in the initialized set,
runs the plugin's client setup (outcome supplied by the `initRes` oracle):
on success the name is added to the set, on failure the error propagates and
the state is unchanged. -/
def getPlugin (s : RegistryState) (name : String) (initRes : Except Thrown Unit) :
    ResolveResult :=
  match s.plugins.lookup name with
  | none => ⟨.ok none, s, 0⟩
  | some p =>
    if s.initialized.contains name then ⟨.ok (some p), s, 0⟩
    else
      match initRes with
      | .error t => ⟨.error t, s, 1⟩
      | .ok _ => ⟨.ok (some p), ⟨s.plugins, name :: s.initialized⟩, 1⟩

/-- `getAllPlugins` (core/registry.ts): the registered names, in insertion
order.  The source body only reads the map. -/
def getAllPlugins (s : RegistryState) : List String :=
  s.plugins.map Prod.fst

/-- `getPluginPaths` (core/registry.ts): a plugin's declared path descriptors,
without running its client setup.  The source body only reads the map. -/
def getPluginPaths (s : RegistryState) (name : String) : Option (List PathHandler) :=
  (s.plugins.lookup name).map AppPlugin.paths

/-- The 404 message `App "name" not found` used by both the list route and the
execute route of core/router.ts. -/
def appNotFoundMsg (app : String) : String :=
  "App \"" ++ app ++ "\" not found"

/-- The 404 message `Path "p" not found in app "a"` of the execute route. -/
def pathNotFoundMsg (app pathName : String) : String :=
  "Path \"" ++ pathName ++ "\" not found in app \"" ++ app ++ "\""

/-- The `catch` clause of the execute route: a taxonomy error is forwarded
as itself (`err instanceof AppError ? err`), anything else is wrapped as
`new PluginError(app, "Handler error: " + message)` with the default status
code 500. -/
def catchClause (app : String) (t : Thrown) : ErrValue :=
  match t with
  | .taxonomy e => e
  | .plain msg => .pluginError app ("Handler error: " ++ msg) 500

/-- What the router did with one request: wrote an introspection JSON body,
ran a descriptor's handler to a written response, forwarded exactly one error
to the terminal error stage via `next(err)`, or matched no route at all so
the request fell through to the framework's default handling. -/
inductive RouteOutcome where
  | jsonResponse (body : JValue)
  | handlerRun (app : String) (pathName : String) (response : HttpResponse)
  | nextErr (e : ErrValue)
  | fallthrough

/-- Result of routing one request: the outcome, the registry state afterwards,
and how many plugin client-setup invocations happened along the way. -/
structure RouteResult where
  outcome : RouteOutcome
  state : RegistryState
  initCalls : Nat

/-- Body of the `GET /items` introspection route. -/
def itemsBody (s : RegistryState) : JValue :=
  .jobj [("apps", .jarr ((getAllPlugins s).map .jstr)),
         ("count", .jnum (getAllPlugins s).length)]

/-- The `GET /list/:app` introspection route: reads `getPluginPaths` and
either writes the name/description listing or forwards a 404 `AppError`.
It never resolves (hence never sets up) the plugin. -/
def listRoute (s : RegistryState) (app : String) : RouteResult :=
  match getPluginPaths s app with
  | none => ⟨.nextErr (.appError (appNotFoundMsg app) 404), s, 0⟩
  | some paths =>
    ⟨.jsonResponse (.jobj
        [("app", .jstr app),
         ("paths", .jarr (paths.map fun p =>
            .jobj [("name", .jstr p.name), ("description", .jstr p.description)])),
         ("count", .jnum paths.length)]),
      s, 0⟩

/-- The `GET /:app/:path` execute route of core/router.ts: resolves the plugin
(running its lazy client setup), 404s when the plugin is absent, finds the
descriptor whose `name` equals the second URL segment exactly, 404s with a
`PluginError` when none matches, validates query parameters against the
descriptor's schema when present (400 on failure), and otherwise runs the
handler; anything thrown inside the `try` is translated by `catchClause` and
forwarded to the terminal stage. -/
def execRoute (s : RegistryState) (initRes : Except Thrown Unit)
    (app pathName : String) (query : List (String × String)) : RouteResult :=
  let r := getPlugin s app initRes
  match r.result with
  | .error t => ⟨.nextErr (catchClause app t), r.state, r.initCalls⟩
  | .ok none => ⟨.nextErr (.appError (appNotFoundMsg app) 404), r.state, r.initCalls⟩
  | .ok (some plugin) =>
    match plugin.paths.find? (fun d => d.name == pathName) with
    | none => ⟨.nextErr (.pluginError app (pathNotFoundMsg app pathName) 404),
               r.state, r.initCalls⟩
    | some d =>
      let validationIssues : Option (List String) :=
        match d.schema with
        | none => none
        | some check =>
          match check query with
          | .ok _ => none
          | .error issues => some issues
      match validationIssues with
      | some issues =>
        ⟨.nextErr (.appError ("Invalid parameters: " ++ String.intercalate ", " issues) 400),
          r.state, r.initCalls⟩
      | none =>
        match d.handler ⟨[("app", app), ("path", pathName)], query⟩ with
        | .ok resp => ⟨.handlerRun app pathName resp, r.state, r.initCalls⟩
        | .error t => ⟨.nextErr (catchClause app t), r.state, r.initCalls⟩

/-- The dynamic router of core/router.ts, applied to a request whose URL path
splits into `segments`.  Route registration order is `/items`, `/list/:app`,
`/:app/:path`; an Express `:param` matches exactly one non-empty segment, so
a one-segment request only matches `/items` when it is literally `items`, a
two-segment request matches `/list/:app` first and the generic execute route
otherwise, and a request with any other segment count matches no route and
falls through. -/
def routeRequest (s : RegistryState) (initRes : Except Thrown Unit)
    (segments : List String) (query : List (String × String)) : RouteResult :=
  match segments with
  | [single] =>
    if single = "items" then ⟨.jsonResponse (itemsBody s), s, 0⟩
    else ⟨.fallthrough, s, 0⟩
  | [first, second] =>
    if first = "list" then listRoute s second
    else execRoute s initRes first second query
  | _ => ⟨.fallthrough, s, 0⟩

/-- JS truthiness for an optional string: `undefined` and the empty string
are falsy, any other string is truthy (`if (app) ...`). -/
def truthy (o : Option String) : Option String :=
  match o with
  | none => none
  | some s => if s = "" then none else some s

/-- The app context the terminal error stage reports:
`err instanceof PluginError ? err.pluginName : req.params?.app`. -/
def appContext (err : Thrown) (paramsApp : Option String) : Option String :=
  match err with
  | .taxonomy (.pluginError name _ _) => some name
  | _ => paramsApp

/-- A finished error response: HTTP status plus the JSON body as the ordered
field list it was built from. -/
structure ErrorResponse where
  status : Nat
  fields : List (String × JValue)

/-- The terminal error middleware (middleware/errorHandler.ts): derives the
status code from the taxonomy (500 for a plain error), sanitizes the message
to `Internal server error` exactly when running in production and the status
is at least 500, and emits `error`, `statusCode`, `timestamp` plus `app` and
`path` keys exactly when those context values are truthy. -/
def errorHandler (isProduction : Bool) (err : Thrown)
    (paramsApp paramsPath : Option String) (now : String) : ErrorResponse :=
  let statusCode := thrownStatus err
  let errorMsg :=
    if isProduction ∧ 500 ≤ statusCode then "Internal server error"
    else thrownMessage err
  let base := [("error", JValue.jstr errorMsg),
               ("statusCode", JValue.jnum (statusCode : Int)),
               ("timestamp", JValue.jstr now)]
  let withApp :=
    match truthy (appContext err paramsApp) with
    | some a => base ++ [("app", JValue.jstr a)]
    | none => base
  let withPath :=
    match truthy paramsPath with
    | some p => withApp ++ [("path", JValue.jstr p)]
    | none => withApp
  ⟨statusCode, withPath⟩

/-! ## The Linear integration (apps/linear) -/

/-- A workflow state as delivered by the upstream SDK. -/
structure RawState where
  id : String
  name : String
  color : String
  type : String

/-- A user as delivered by the upstream SDK. -/
structure RawUser where
  id : String
  name : String
  email : String

/-- A team as delivered by the upstream SDK. -/
structure RawTeam where
  id : String
  name : String
  key : String

/-- A label as delivered by the upstream SDK. -/
structure RawLabel where
  id : String
  name : String
  color : String

/-- One issue node as delivered by the upstream SDK, after awaiting its
state/assignee/team/labels relations; timestamps already rendered to ISO
strings. -/
structure RawIssue where
  id : String
  identifier : String
  title : String
  description : Option String
  priority : Int
  priorityLabel : String
  state : Option RawState
  assignee : Option RawUser
  team : Option RawTeam
  labels : List RawLabel
  createdAt : String
  updatedAt : String
  url : String

/-- Sanitized state object in a `LinearIssue` (apps/linear/types). -/
structure IssueState where
  id : String
  name : String
  color : String
  type : String

/-- Sanitized assignee object. -/
structure IssueUser where
  id : String
  name : String
  email : String

/-- Sanitized team object. -/
structure IssueTeam where
  id : String
  name : String
  key : String

/-- Sanitized label object. -/
structure IssueLabel where
  id : String
  name : String
  color : String

/-- The sanitized issue shape returned by the Linear client. -/
structure LinearIssue where
  id : String
  identifier : String
  title : String
  description : Option String
  priority : Int
  priorityLabel : String
  state : Option IssueState
  assignee : Option IssueUser
  team : Option IssueTeam
  labels : List IssueLabel
  createdAt : String
  updatedAt : String
  url : String

/-- `excludedTypes` of apps/linear/client.ts `fetchMyIssues`. -/
def excludedTypes : List String := ["completed", "canceled"]

/-- `excludedNames` of apps/linear/client.ts `fetchMyIssues`. -/
def excludedNames : List String := ["Done", "Cancelled", "Canceled", "Duplicate", "Resolved"]

/-- The skip condition of the `fetchMyIssues` loop:
`state && (excludedTypes.includes(state.type) || excludedNames.includes(state.name))`.
An issue with no state is never skipped. -/
def isExcluded (state : Option RawState) : Bool :=
  match state with
  | none => false
  | some st => excludedTypes.contains st.type || excludedNames.contains st.name

/-- The per-issue sanitizing push of the `fetchMyIssues` loop. -/
def sanitizeIssue (i : RawIssue) : LinearIssue :=
  { id := i.id
    identifier := i.identifier
    title := i.title
    description := i.description
    priority := i.priority
    priorityLabel := i.priorityLabel
    state := i.state.map fun st => ⟨st.id, st.name, st.color, st.type⟩
    assignee := i.assignee.map fun u => ⟨u.id, u.name, u.email⟩
    team := i.team.map fun t => ⟨t.id, t.name, t.key⟩
    labels := i.labels.map fun l => ⟨l.id, l.name, l.color⟩
    createdAt := i.createdAt
    updatedAt := i.updatedAt
    url := i.url }

/-- The issue loop of `fetchMyIssues` (apps/linear/client.ts), applied to the
nodes the upstream SDK returned for the viewer's assigned issues: skip any
issue whose state is excluded, push the sanitized form of every other
issue, preserving order. -/
def fetchMyIssues : List RawIssue → List LinearIssue
  | [] => []
  | i :: rest =>
    if isExcluded i.state then fetchMyIssues rest
    else sanitizeIssue i :: fetchMyIssues rest

/-- The `my-issues` path descriptor (apps/linear/paths, referenced from
paths/index.ts and documented in the repository docs).  Its handler body is
not needed by any routing fact proved here, so the request-handling function
is a parameter. -/
def myIssuesPath (h : Request → Except Thrown HttpResponse) : PathHandler :=
  { name := "my-issues"
    description := "Fetch all issues assigned to the authenticated user"
    handler := h }

/-- The `issue/:identifier` path descriptor (apps/linear/paths/issue-detail.ts).
The upstream fetch is the oracle `fetchIssue`, returning the sanitized issue
body and comment list the upstream call would produce, or the error it would
throw; `now` is the wall-clock timestamp.  The handler 400s when the
`identifier` route parameter is falsy (the generic router never binds it),
and otherwise wraps the fetched data in the success envelope. -/
def issueDetailPath (fetchIssue : String → Except Thrown (JValue × List JValue))
    (now : String) : PathHandler :=
  { name := "issue/:identifier"
    description := "Fetch a single issue by identifier with details and comments"
    handler := fun req =>
      match truthy (req.params.lookup "identifier") with
      | none =>
        .ok ⟨400, .jobj [("error", .jstr "Issue identifier is required"),
                         ("statusCode", .jnum 400),
                         ("timestamp", .jstr now)]⟩
      | some ident =>
        match fetchIssue ident with
        | .error t => .error t
        | .ok (issue, comments) =>
          .ok ⟨200, .jobj
            [("app", .jstr "linear"),
             ("path", .jstr "issue"),
             ("data", .jobj [("issue", issue),
                             ("comments", .jarr comments),
                             ("commentCount", .jnum comments.length)]),
             ("timestamp", .jstr now)]⟩ }

/-- The Linear plugin (apps/linear/index.ts): name `linear`, with the two
declared path descriptors in their paths/index.ts order. -/
def linearPlugin (myIssuesH : Request → Except Thrown HttpResponse)
    (fetchIssue : String → Except Thrown (JValue × List JValue))
    (now : String) : AppPlugin :=
  { name := "linear"
    version := "1.0.0"
    description := "Integration with Linear issue tracking"
    paths := [myIssuesPath myIssuesH, issueDetailPath fetchIssue now] }

/-- A concrete stand-in handler for facts that do not depend on the handler
body: it writes an empty 200. -/
def okHandler : Request → Except Thrown HttpResponse :=
  fun _ => .ok ⟨200, .jnull⟩

/-- A concrete stand-in upstream fetch returning an empty issue body. -/
def demoFetchIssue : String → Except Thrown (JValue × List JValue) :=
  fun _ => .ok (.jnull, [])

/-- The Linear plugin with the concrete stand-in oracles. -/
def demoLinearPlugin : AppPlugin :=
  linearPlugin okHandler demoFetchIssue "2024-01-01T00:00:00.000Z"

/-- A registry holding exactly the Linear plugin, as after startup discovery. -/
def demoRegistry : RegistryState := registerPlugin emptyRegistry demoLinearPlugin

/-- An outcome is the router's "app not found" error: a 404 `AppError` with
the app-not-found message for some app name. -/
def isAppNotFoundOutcome (o : RouteOutcome) : Prop :=
  ∃ a, o = .nextErr (.appError (appNotFoundMsg a) 404)

/-- An outcome is the router's "path not found" error: a 404 `PluginError`
carrying some plugin name and the path-not-found message. -/
def isPathNotFoundOutcome (o : RouteOutcome) : Prop :=
  ∃ a p, o = .nextErr (.pluginError a (pathNotFoundMsg a p) 404)

/-! ## Helper lemmas on association lists keyed by strings -/

/-- Looking a key up in an appended list skips a left part that lacks it. -/
theorem lookup_append_of_none {β : Type} {l₁ l₂ : List (String × β)} {k : String}
    (h : l₁.lookup k = none) : (l₁ ++ l₂).lookup k = l₂.lookup k := by
  induction l₁ with
  | nil => rfl
  | cons kv rest ih =>
    obtain ⟨a, b⟩ := kv
    by_cases hk : k = a
    · simp [List.lookup, hk] at h
    · simp only [List.cons_append, List.lookup] at h ⊢
      rw [show (k == a) = false by simp [hk]] at h ⊢
      exact ih h

/-- A list in which a key does not occur has no entries with that key. -/
theorem filter_key_of_none {β : Type} {l : List (String × β)} {k : String}
    (h : l.lookup k = none) : l.filter (fun kv => kv.1 == k) = [] := by
  induction l with
  | nil => rfl
  | cons kv rest ih =>
    obtain ⟨a, b⟩ := kv
    by_cases hk : k = a
    · simp [List.lookup, hk] at h
    · simp only [List.lookup] at h
      rw [show (k == a) = false by simp [hk]] at h
      simp only [List.filter_cons]
      rw [show ((a, b).1 == k) = false by simp [Ne.symm hk]]
      exact ih h

/-! ## Claim theorems -/

/-- C1: the spec requires `GET /linear/issue/PROJ-123` to be dispatched to the
`issue/:identifier` descriptor with the placeholder bound; the code's only
execute route is the generic two-segment `/:app/:path` with exact-name
descriptor lookup, so with the Linear plugin registered the three-segment
request matches no route at all (framework fallthrough), and even the
two-segment prefix `GET /linear/issue` yields the path-not-found error
because no descriptor is named exactly `issue`.  The handler declared for
`issue/:identifier` is unreachable, contradicting its own doc comment and
the repository's API documentation. -/
theorem issue_detail_route_unreachable :
    (routeRequest demoRegistry (.ok ()) ["linear", "issue", "PROJ-123"] []).outcome
        = .fallthrough ∧
    (routeRequest demoRegistry (.ok ()) ["linear", "issue"] []).outcome
        = .nextErr (.pluginError "linear" (pathNotFoundMsg "linear" "issue") 404) :=
  ⟨rfl, rfl⟩

/-- C2 counterexample: the documented inbound route
`GET /linear/issue/PROJ-123` does not match any registered plugin/path
combination, yet the router produces neither of the two 404 errors — it
matches no route and the request falls through, a third outcome. -/
theorem unmatched_route_third_outcome :
    ¬ (isAppNotFoundOutcome
          (routeRequest demoRegistry (.ok ()) ["linear", "issue", "PROJ-123"] []).outcome ∨
       isPathNotFoundOutcome
          (routeRequest demoRegistry (.ok ()) ["linear", "issue", "PROJ-123"] []).outcome) := by
  have h : (routeRequest demoRegistry (.ok ()) ["linear", "issue", "PROJ-123"] []).outcome
      = RouteOutcome.fallthrough := rfl
  rw [h]
  simp only [isAppNotFoundOutcome, isPathNotFoundOutcome]
  rintro (⟨a, hc⟩ | ⟨a, p, hc⟩) <;> exact RouteOutcome.noConfusion hc

/-- The amended C2 property, for a two-segment request `GET /{a}/{p}` with
`a ≠ "list"` (two-segment requests whose first segment is `list` are claimed
by the introspection route first): an unregistered app name yields the 404
`AppError` "app not found"; a registered app whose lazy client setup has
already run or succeeds now, with no descriptor named exactly `p`, yields
the distinct 404 `PluginError` "path not found" carrying the plugin name. -/
def TwoSegmentUnmatchedSpec (s : RegistryState) (initRes : Except Thrown Unit)
    (q : List (String × String)) (a p : String) : Prop :=
  (s.plugins.lookup a = none →
     (routeRequest s initRes [a, p] q).outcome
       = .nextErr (.appError (appNotFoundMsg a) 404)) ∧
  (∀ pl, s.plugins.lookup a = some pl →
     (s.initialized.contains a = true ∨ initRes = .ok ()) →
     pl.paths.find? (fun d => d.name == p) = none →
     (routeRequest s initRes [a, p] q).outcome
       = .nextErr (.pluginError a (pathNotFoundMsg a p) 404))

/-- C2 (amended): on two-segment requests the router does produce exactly the
two distinguishable 404 errors, for every registry state. -/
theorem routing_two_segment_unmatched (s : RegistryState) (initRes : Except Thrown Unit)
    (q : List (String × String)) (a p : String) (ha : a ≠ "list") :
    TwoSegmentUnmatchedSpec s initRes q a p := by
  have hroute : routeRequest s initRes [a, p] q = execRoute s initRes a p q := by
    simp [routeRequest, ha]
  constructor
  · intro habs
    rw [hroute]
    simp [execRoute, getPlugin, habs]
  · intro pl hpl hini hfind
    rw [hroute]
    rcases hini with hini | hini
    · have hmem : a ∈ s.initialized := by simpa using hini
      simp [execRoute, getPlugin, hpl, hmem, hfind]
    · subst hini
      by_cases hmem : a ∈ s.initialized
      · simp [execRoute, getPlugin, hpl, hmem, hfind]
      · simp [execRoute, getPlugin, hpl, hmem, hfind]

/-- Witness for the amended C2 at a concrete input: the registered `linear`
plugin with the unknown path `nope`. -/
theorem routing_two_segment_unmatched_witness :
    ("linear" ≠ "list") ∧ TwoSegmentUnmatchedSpec demoRegistry (.ok ()) [] "linear" "nope" :=
  ⟨by decide, routing_two_segment_unmatched demoRegistry (.ok ()) [] "linear" "nope" (by decide)⟩

/-- The C3 property for a plugin `p` fresh in state `s`: registration leaves
the initialized set untouched (the client setup cannot run there: the
registration body contains no setup call), the first resolution returns the
plugin, performs exactly one setup invocation and marks the name
initialized, and every later resolution returns the plugin with zero setup
invocations and an unchanged state, whatever its oracle says. -/
def LazyInitSpec (s : RegistryState) (p : AppPlugin) : Prop :=
  (registerPlugin s p).initialized = s.initialized ∧
  (getPlugin (registerPlugin s p) p.name (.ok ())).result = .ok (some p) ∧
  (getPlugin (registerPlugin s p) p.name (.ok ())).initCalls = 1 ∧
  (getPlugin (registerPlugin s p) p.name (.ok ())).state.initialized.contains p.name = true ∧
  ∀ r : Except Thrown Unit,
    getPlugin (getPlugin (registerPlugin s p) p.name (.ok ())).state p.name r
      = ⟨.ok (some p), (getPlugin (registerPlugin s p) p.name (.ok ())).state, 0⟩

/-- C3: lazy one-shot client setup — no setup before first resolution, exactly
one setup on a successful first resolution, none afterwards. -/
theorem lazy_client_setup (s : RegistryState) (p : AppPlugin)
    (hfresh : s.plugins.lookup p.name = none)
    (hninit : s.initialized.contains p.name = false) :
    LazyInitSpec s p := by
  have hreg : registerPlugin s p = ⟨s.plugins ++ [(p.name, p)], s.initialized⟩ := by
    simp [registerPlugin, hfresh]
  have hlook : (s.plugins ++ [(p.name, p)]).lookup p.name = some p := by
    rw [lookup_append_of_none hfresh]
    simp [List.lookup]
  have hnotmem : p.name ∉ s.initialized := by simpa using hninit
  have hfirst : getPlugin (registerPlugin s p) p.name (.ok ())
      = ⟨.ok (some p), ⟨s.plugins ++ [(p.name, p)], p.name :: s.initialized⟩, 1⟩ := by
    rw [hreg]
    simp [getPlugin, hlook, hnotmem]
  refine ⟨by rw [hreg], ?_, ?_, ?_, ?_⟩
  · rw [hfirst]
  · rw [hfirst]
  · rw [hfirst]
    simp
  · intro r
    rw [hfirst]
    simp [getPlugin, hlook]

/-- Witness for C3: a freshly registered probe plugin in the empty registry. -/
def probePlugin : AppPlugin :=
  ⟨"probe", "1.0.0", "probe plugin", []⟩

/-- A second plugin that reuses the probe plugin's name. -/
def probePlugin2 : AppPlugin :=
  ⟨"probe", "2.0.0", "second probe plugin", []⟩

/-- A registry holding the probe plugin, with its client setup not yet run. -/
def probeRegistry : RegistryState := ⟨[("probe", probePlugin)], []⟩

/-- Witness for C3 at a concrete input. -/
theorem lazy_client_setup_witness :
    emptyRegistry.plugins.lookup probePlugin.name = none ∧
    emptyRegistry.initialized.contains probePlugin.name = false ∧
    LazyInitSpec emptyRegistry probePlugin :=
  ⟨rfl, rfl, lazy_client_setup emptyRegistry probePlugin rfl rfl⟩

/-- C4: when the client setup throws during resolution, the error propagates
to the caller of `getPlugin`, the registry state is completely unchanged (in
particular the name is not marked initialized), and a subsequent resolution
of the same name on that unchanged state runs the setup again (one more
invocation) rather than returning a plugin without setup. -/
theorem client_setup_failure_retryable (s : RegistryState) (name : String)
    (p : AppPlugin) (t : Thrown)
    (hreg : s.plugins.lookup name = some p)
    (hninit : s.initialized.contains name = false) :
    getPlugin s name (.error t) = ⟨.error t, s, 1⟩ ∧
    getPlugin s name (.ok ())
      = ⟨.ok (some p), ⟨s.plugins, name :: s.initialized⟩, 1⟩ := by
  have hnotmem : name ∉ s.initialized := by simpa using hninit
  constructor <;> simp [getPlugin, hreg, hnotmem]

/-- Witness for C4 at a concrete input: a setup failure on the probe plugin. -/
theorem client_setup_failure_retryable_witness :
    probeRegistry.plugins.lookup "probe" = some probePlugin ∧
    probeRegistry.initialized.contains "probe" = false ∧
    (getPlugin probeRegistry "probe" (.error (.plain "boom"))
        = ⟨.error (.plain "boom"), probeRegistry, 1⟩ ∧
     getPlugin probeRegistry "probe" (.ok ())
        = ⟨.ok (some probePlugin), ⟨probeRegistry.plugins, "probe" :: probeRegistry.initialized⟩, 1⟩) :=
  ⟨rfl, rfl,
    client_setup_failure_retryable probeRegistry "probe" probePlugin (.plain "boom") rfl rfl⟩

/-- C5: registering a second plugin under an existing name is a no-op — the
whole registry state is unchanged — and the registry keeps exactly one entry
for that name, the first-registered plugin. -/
theorem register_first_wins (s : RegistryState) (p q : AppPlugin)
    (hname : q.name = p.name) (hfresh : s.plugins.lookup p.name = none) :
    registerPlugin (registerPlugin s p) q = registerPlugin s p ∧
    (registerPlugin s p).plugins.lookup p.name = some p ∧
    ((registerPlugin s p).plugins.filter (fun kv => kv.1 == p.name)).length = 1 := by
  have hreg : registerPlugin s p = ⟨s.plugins ++ [(p.name, p)], s.initialized⟩ := by
    simp [registerPlugin, hfresh]
  have hlook : (s.plugins ++ [(p.name, p)]).lookup p.name = some p := by
    rw [lookup_append_of_none hfresh]
    simp [List.lookup]
  refine ⟨?_, ?_, ?_⟩
  · rw [hreg]
    simp [registerPlugin, hname, hlook]
  · rw [hreg]
    exact hlook
  · rw [hreg]
    simp only [List.filter_append]
    rw [filter_key_of_none hfresh]
    simp

/-- Witness for C5 at a concrete input: two probe plugins sharing a name. -/
theorem register_first_wins_witness :
    probePlugin2.name = probePlugin.name ∧
    emptyRegistry.plugins.lookup probePlugin.name = none ∧
    (registerPlugin (registerPlugin emptyRegistry probePlugin) probePlugin2
        = registerPlugin emptyRegistry probePlugin ∧
     (registerPlugin emptyRegistry probePlugin).plugins.lookup probePlugin.name
        = some probePlugin ∧
     ((registerPlugin emptyRegistry probePlugin).plugins.filter
        (fun kv => kv.1 == probePlugin.name)).length = 1) :=
  ⟨rfl, rfl, register_first_wins emptyRegistry probePlugin probePlugin2 rfl rfl⟩

/-- C6: the terminal error stage keeps the error's own status code; in
production mode it replaces the message of every error whose status code is
at least 500 with the fixed string `Internal server error` and returns every
sub-500 message verbatim, and outside production mode every message passes
through unchanged. -/
theorem production_sanitizes_5xx (err : Thrown) (pa pp : Option String) (now : String) :
    (errorHandler true err pa pp now).status = thrownStatus err ∧
    (errorHandler true err pa pp now).fields.lookup "error"
      = some (.jstr (if 500 ≤ thrownStatus err then "Internal server error"
                     else thrownMessage err)) ∧
    (errorHandler false err pa pp now).status = thrownStatus err ∧
    (errorHandler false err pa pp now).fields.lookup "error"
      = some (.jstr (thrownMessage err)) := by
  refine ⟨rfl, ?_, rfl, ?_⟩ <;>
    · unfold errorHandler
      cases h1 : truthy (appContext err pa) <;> cases h2 : truthy pp <;>
        simp [List.lookup, h1, h2]

/-- The middleware function in isolation emits exactly the keys `error`,
`statusCode` (the error's status as a number) and `timestamp` (the supplied
clock string), plus `app` and `path` exactly when the corresponding context
value it receives is truthy.  What context it actually receives is settled
at the pipeline level below. -/
theorem errorHandler_fields_shape (isProd : Bool) (err : Thrown) (pa pp : Option String)
    (now : String) :
    ((errorHandler isProd err pa pp now).fields.map Prod.fst
        = ["error", "statusCode", "timestamp"]
          ++ (match truthy (appContext err pa) with
              | some _ => ["app"]
              | none => [])
          ++ (match truthy pp with
              | some _ => ["path"]
              | none => [])) ∧
    (errorHandler isProd err pa pp now).fields.lookup "statusCode"
        = some (.jnum (thrownStatus err : Int)) ∧
    (errorHandler isProd err pa pp now).fields.lookup "timestamp"
        = some (.jstr now) := by
  refine ⟨?_, ?_, ?_⟩ <;>
    · unfold errorHandler
      cases h1 : truthy (appContext err pa) <;> cases h2 : truthy pp <;>
        simp [List.lookup, h1, h2]

/-- The error path of one request through the assembled app (server.ts):
the dynamic router forwards an error with `next(err)`, the error leaves the
mounted sub-router, and the app-level terminal middleware runs.  Express
saves and restores `req.params` around a mounted router, so when the error
reaches the app-level middleware the route parameters bound inside the
router are gone: `req.params` is the app-level empty object, and the
middleware's `req.params?.app` and `req.params?.path` reads both yield
nothing.  Only a `PluginError` can therefore contribute an `app` key, via
its own `pluginName` field. -/
def pipelineErrorResponse (isProduction : Bool) (s : RegistryState)
    (initRes : Except Thrown Unit) (segments : List String)
    (query : List (String × String)) (now : String) : Option ErrorResponse :=
  match (routeRequest s initRes segments query).outcome with
  | .nextErr e => some (errorHandler isProduction (.taxonomy e) none none now)
  | _ => none

/-- C7: evaluation at the failing input.  For `GET /ghost/x` (unregistered
app) the terminal stage's envelope holds exactly the keys `error`,
`statusCode`, `timestamp` — no `app` key, because the route parameters do
not survive the exit from the sub-router — while the claim requires `app`
to be present even for "app not found"; no envelope on this pipeline ever
carries `path`.  By contrast the path-not-found `PluginError` does carry
`app`, from its own `pluginName` field. -/
theorem app_not_found_envelope_lacks_app :
    pipelineErrorResponse false demoRegistry (.ok ()) ["ghost", "x"] []
        "2024-01-01T00:00:00.000Z"
      = some ⟨404, [("error", .jstr (appNotFoundMsg "ghost")),
                    ("statusCode", .jnum 404),
                    ("timestamp", .jstr "2024-01-01T00:00:00.000Z")]⟩ ∧
    pipelineErrorResponse false demoRegistry (.ok ()) ["linear", "nope"] []
        "2024-01-01T00:00:00.000Z"
      = some ⟨404, [("error", .jstr (pathNotFoundMsg "linear" "nope")),
                    ("statusCode", .jnum 404),
                    ("timestamp", .jstr "2024-01-01T00:00:00.000Z"),
                    ("app", .jstr "linear")]⟩ :=
  ⟨rfl, rfl⟩

/-- C8: a descriptor handler that throws a plain (non-taxonomy) error during
`GET /{app}/{path}` execution is caught by the route's `catch`, and the
router forwards exactly one `PluginError` to the terminal error stage, with
the default status code 500, tagged with the route's app name, and wrapping
the thrown message; the registry state is untouched and nothing else is
written. -/
theorem handler_plain_error_becomes_plugin_error (s : RegistryState)
    (initRes : Except Thrown Unit) (a p : String) (pl : AppPlugin)
    (d : PathHandler) (q : List (String × String)) (msg : String)
    (ha : a ≠ "list")
    (hreg : s.plugins.lookup a = some pl)
    (hini : s.initialized.contains a = true)
    (hfind : pl.paths.find? (fun d0 => d0.name == p) = some d)
    (hschema : d.schema = none)
    (hthrow : d.handler ⟨[("app", a), ("path", p)], q⟩ = .error (.plain msg)) :
    routeRequest s initRes [a, p] q
      = ⟨.nextErr (.pluginError a ("Handler error: " ++ msg) 500), s, 0⟩ := by
  have hmem : a ∈ s.initialized := by simpa using hini
  simp [routeRequest, ha, execRoute, getPlugin, hreg, hmem, hfind, hschema,
        hthrow, catchClause]

/-- A descriptor whose handler always throws a plain error. -/
def throwingPath : PathHandler :=
  { name := "boom-path"
    description := "always throws a plain error"
    handler := fun _ => .error (.plain "boom") }

/-- A plugin exposing only the throwing descriptor. -/
def throwingPlugin : AppPlugin :=
  ⟨"demo", "1.0.0", "throwing demo plugin", [throwingPath]⟩

/-- A registry where the throwing plugin is registered and already set up. -/
def throwingRegistry : RegistryState := ⟨[("demo", throwingPlugin)], ["demo"]⟩

/-- Witness for C8 at a concrete input. -/
theorem handler_plain_error_becomes_plugin_error_witness :
    ("demo" ≠ "list") ∧
    throwingRegistry.plugins.lookup "demo" = some throwingPlugin ∧
    throwingRegistry.initialized.contains "demo" = true ∧
    throwingPlugin.paths.find? (fun d0 => d0.name == "boom-path") = some throwingPath ∧
    throwingPath.schema = none ∧
    throwingPath.handler ⟨[("app", "demo"), ("path", "boom-path")], []⟩
        = .error (.plain "boom") ∧
    routeRequest throwingRegistry (.ok ()) ["demo", "boom-path"] []
      = ⟨.nextErr (.pluginError "demo" ("Handler error: " ++ "boom") 500),
          throwingRegistry, 0⟩ :=
  ⟨by decide, rfl, rfl, rfl, rfl, rfl,
    handler_plain_error_becomes_plugin_error throwingRegistry (.ok ()) "demo"
      "boom-path" throwingPlugin throwingPath [] "boom"
      (by decide) rfl rfl rfl rfl rfl⟩

/-- C9: the introspection routes built on the registry's read operations
leave the registry state exactly as it was and perform zero plugin
client-setup invocations, for every registry state and every name,
registered or not.  (`getAllPlugins` and `getPluginPaths` are translated
from source bodies that only read the plugin map, so they are pure
functions of the state here.) -/
theorem introspection_reads_pure (s : RegistryState) (initRes : Except Thrown Unit)
    (name : String) (q : List (String × String)) :
    (routeRequest s initRes ["items"] q).state = s ∧
    (routeRequest s initRes ["items"] q).initCalls = 0 ∧
    (routeRequest s initRes ["list", name] q).state = s ∧
    (routeRequest s initRes ["list", name] q).initCalls = 0 := by
  refine ⟨rfl, rfl, ?_, ?_⟩ <;>
    · cases h : getPluginPaths s name <;> simp [routeRequest, listRoute, h]

/-- C10: every issue returned by the Linear client's fetch either carries no
state or carries a state whose type is outside the excluded types and whose
name is outside the excluded names; and an issue carrying no state at all
always passes the filter and appears (sanitized) in the result. -/
theorem fetch_my_issues_filter (raw : List RawIssue) :
    (∀ issue ∈ fetchMyIssues raw,
       issue.state = none ∨
       ∃ st : IssueState, issue.state = some st ∧
         st.type ∉ excludedTypes ∧ st.name ∉ excludedNames) ∧
    (∀ i ∈ raw, i.state = none → sanitizeIssue i ∈ fetchMyIssues raw) := by
  induction raw with
  | nil =>
    refine ⟨?_, ?_⟩ <;> · intro x hx; cases hx
  | cons i rest ih =>
    obtain ⟨ih1, ih2⟩ := ih
    constructor
    · intro issue hmem
      by_cases hexc : isExcluded i.state = true
      · rw [show fetchMyIssues (i :: rest) = fetchMyIssues rest by
            simp [fetchMyIssues, hexc]] at hmem
        exact ih1 issue hmem
      · rw [show fetchMyIssues (i :: rest) = sanitizeIssue i :: fetchMyIssues rest by
            simp [fetchMyIssues, hexc]] at hmem
        rcases List.mem_cons.mp hmem with heq | hmem'
        · subst heq
          cases hst : i.state with
          | none => exact Or.inl (by simp [sanitizeIssue, hst])
          | some st =>
            refine Or.inr ⟨⟨st.id, st.name, st.color, st.type⟩, by simp [sanitizeIssue, hst], ?_, ?_⟩
            · rw [hst] at hexc
              simp [isExcluded] at hexc
              exact hexc.1
            · rw [hst] at hexc
              simp [isExcluded] at hexc
              exact hexc.2
        · exact ih1 issue hmem'
    · intro j hj hstate
      rcases List.mem_cons.mp hj with heq | hj'
      · subst heq
        have hkeep : isExcluded j.state = false := by rw [hstate]; rfl
        rw [show fetchMyIssues (j :: rest) = sanitizeIssue j :: fetchMyIssues rest by
            simp [fetchMyIssues, hkeep]]
        exact List.mem_cons_self _ _
      · by_cases hexc : isExcluded i.state = true
        · rw [show fetchMyIssues (i :: rest) = fetchMyIssues rest by
              simp [fetchMyIssues, hexc]]
          exact ih2 j hj' hstate
        · rw [show fetchMyIssues (i :: rest) = sanitizeIssue i :: fetchMyIssues rest by
              simp [fetchMyIssues, hexc]]
          exact List.mem_cons_of_mem _ (ih2 j hj' hstate)

/-- A raw issue carrying no state at all. -/
def demoIssueNoState : RawIssue :=
  ⟨"id1", "ENG-1", "stateless issue", none, 0, "No priority", none, none, none,
    [], "2024-01-01T00:00:00.000Z", "2024-01-01T00:00:00.000Z",
    "https://linear.app/ws/issue/ENG-1"⟩

/-- A raw issue in the excluded `Done` state. -/
def demoIssueDone : RawIssue :=
  ⟨"id2", "ENG-2", "finished issue", none, 0, "No priority",
    some ⟨"st1", "Done", "#5e6ad2", "completed"⟩, none, none,
    [], "2024-01-01T00:00:00.000Z", "2024-01-01T00:00:00.000Z",
    "https://linear.app/ws/issue/ENG-2"⟩

/-- Witness for C10 at a concrete input: the stateless issue survives the
filter even next to an excluded one. -/
theorem fetch_my_issues_filter_witness :
    demoIssueNoState ∈ [demoIssueDone, demoIssueNoState] ∧
    demoIssueNoState.state = none ∧
    sanitizeIssue demoIssueNoState ∈ fetchMyIssues [demoIssueDone, demoIssueNoState] :=
  ⟨List.mem_cons_of_mem _ (List.mem_cons_self _ _), rfl,
    (fetch_my_issues_filter [demoIssueDone, demoIssueNoState]).2 demoIssueNoState
      (List.mem_cons_of_mem _ (List.mem_cons_self _ _)) rfl⟩

end OCServer
